import Mathlib

/-!
Verification of the fee-reconciliation script
(`scripts/properly_populate_transaction_fees.js`) and of the Stripe order
processor (`processOrder` / `getSubscriptionTrialEndDate`) of the
opencollective-api repository, as a shallow embedding in Lean 4.

Conventions used throughout the embedding:
* SQL integer columns become `Int`; the nullable float column
  `hostCurrencyFxRate` becomes `Option Rat` (`none` models SQL `NULL`).
* JavaScript truthiness on a numeric column (`!tr.hostCurrencyFxRate`)
  treats both `null` and `0` as falsy, which is modelled explicitly.
* `Math.round` is `floor (x + 1/2)` (round half toward positive infinity),
  matching JavaScript semantics on finite inputs.
* Fallible JS code (`throw`, promise rejection) becomes `Except`.
* In-place mutation of the two objects of a transaction pair is modelled by
  threading a `Transaction × Transaction` state, with a boolean slot index
  standing for the object reference (`true` = first argument object); this
  keeps the aliasing behaviour of `credit`/`debit` when a row's `type` is
  neither `CREDIT` nor `DEBIT`.
-/

set_option autoImplicit false

/-- A JavaScript primitive value as it appears in the CLI-parsing code:
either a number or a string (argparse yields strings for passed flags and
the literal `defaultValue` otherwise). -/
inductive JSVal where
  | num (n : Int)
  | str (s : String)
deriving DecidableEq, Repr

/-- JavaScript truthiness of a `JSVal`: a number is truthy iff non-zero,
a string is truthy iff non-empty. -/
def jsTruthy : JSVal → Bool
  | .num n => n ≠ 0
  | .str s => s ≠ ""

/-- Numeric coercion of a `JSVal` to a natural number, as the SQL layer
applies to the `limit` parameter (a non-numeric or negative value acts
as 0). -/
def jsValToNat : JSVal → Nat
  | .num n => n.toNat
  | .str s => (s.toNat?).getD 0

/-- JavaScript `Math.round`: round half toward positive infinity. -/
def jsRound (q : Rat) : Int :=
  ⌊q + 1/2⌋

/-- One row of the `Transactions` table, restricted to the columns the
reconciliation script reads or writes. -/
structure Transaction where
  id : Int
  type : String
  TransactionGroup : String
  OrderId : Option Int
  ExpenseId : Option Int
  amount : Int
  amountInHostCurrency : Int
  hostFeeInHostCurrency : Int
  platformFeeInHostCurrency : Int
  paymentProcessorFeeInHostCurrency : Int
  hostCurrencyFxRate : Option Rat
  netAmountInCollectiveCurrency : Int
deriving DecidableEq, Repr

namespace Migration

/-- Numeric value of the nullable `hostCurrencyFxRate` column as used in
arithmetic: SQL `NULL` coerces to 0 in a JS multiplication. -/
def fxVal (r : Option Rat) : Rat :=
  r.getD 0

/-- JS falsiness of the nullable `hostCurrencyFxRate` column
(`!tr.hostCurrencyFxRate`): `NULL` and `0` are falsy. -/
def fxFalsy (r : Option Rat) : Bool :=
  match r with
  | none => true
  | some x => x = 0

/-- `trValue`: net value of a transaction,
`Math.round(amountInHostCurrency + hostFee + platformFee + ppFee) * fxRate`.
The rounding is applied to the integer sum before the multiplication by the
fx rate, exactly as in the source. -/
def trValue (tr : Transaction) : Rat :=
  (jsRound ((tr.amountInHostCurrency
      + tr.hostFeeInHostCurrency
      + tr.platformFeeInHostCurrency
      + tr.paymentProcessorFeeInHostCurrency : Int) : Rat) : Int)
    * fxVal tr.hostCurrencyFxRate

/-- `verify`: the consistency check
`trValue(tr) === tr.netAmountInCollectiveCurrency`. -/
def verify (tr : Transaction) : Bool :=
  trValue tr = (tr.netAmountInCollectiveCurrency : Rat)

/-- `difference`: gap between the computed net value and the stored one. -/
def difference (tr : Transaction) : Rat :=
  trValue tr - (tr.netAmountInCollectiveCurrency : Rat)

/-- `toNegative`: convert `value` to negative if it is positive; zero and
negative values pass through unchanged. -/
def toNegative (value : Int) : Int :=
  if value > 0 then -value else value

/-- `ensureHostCurrencyFxRate`: fill in `hostCurrencyFxRate` with 1 when
`tr.amount === tr.amountInHostCurrency` and the rate is JS-falsy
(`NULL` or 0). -/
def ensureHostCurrencyFxRate (tr : Transaction) : Transaction :=
  if tr.amount = tr.amountInHostCurrency ∧ fxFalsy tr.hostCurrencyFxRate then
    { tr with hostCurrencyFxRate := some 1 }
  else
    tr

/-- `hasFees`: true when any of the three fee columns is non-zero
(`tr.fee && parseInt(tr.fee, 10) !== 0`, which on integer columns is just
non-zeroness). -/
def hasFees (tr : Transaction) : Bool :=
  tr.hostFeeInHostCurrency ≠ 0
    || tr.platformFeeInHostCurrency ≠ 0
    || tr.paymentProcessorFeeInHostCurrency ≠ 0

/-- The mutable state of one `migrate` call: the two row objects passed as
`tr1` and `tr2`. -/
abbrev TPair := Transaction × Transaction

/-- Read the object referenced by a slot (`true` = the `tr1` object). -/
def getSlot (s : TPair) (i : Bool) : Transaction :=
  if i then s.1 else s.2

/-- Write the object referenced by a slot. -/
def setSlot (s : TPair) (i : Bool) (t : Transaction) : TPair :=
  if i then (t, s.2) else (s.1, t)

/-- `rewriteFees(credit, debit)`: the three chained assignments
`credit.fee = debit.fee = toNegative(credit.fee)`.  Each line reads the
credit object's current fee, negates it if positive, and assigns the result
to both objects (the debit object's own fee value is discarded).  The slot
indices `c` and `d` carry the object identities, so the aliased case
(`c = d`) behaves as the JS mutation does. -/
def rewriteFees (s : TPair) (c d : Bool) : TPair :=
  let v1 := toNegative (getSlot s c).hostFeeInHostCurrency
  let s1 := setSlot s d { getSlot s d with hostFeeInHostCurrency := v1 }
  let s2 := setSlot s1 c { getSlot s1 c with hostFeeInHostCurrency := v1 }
  let v2 := toNegative (getSlot s2 c).platformFeeInHostCurrency
  let s3 := setSlot s2 d { getSlot s2 d with platformFeeInHostCurrency := v2 }
  let s4 := setSlot s3 c { getSlot s3 c with platformFeeInHostCurrency := v2 }
  let v3 := toNegative (getSlot s4 c).paymentProcessorFeeInHostCurrency
  let s5 := setSlot s4 d { getSlot s4 d with paymentProcessorFeeInHostCurrency := v3 }
  setSlot s5 c { getSlot s5 c with paymentProcessorFeeInHostCurrency := v3 }

/-- `migrate(tr1, tr2)`: process one pair of transactions.  Throws on a
group mismatch; verifies only (no mutation) for expense-linked pairs and
for pairs with mismatched or absent linkage; for order-linked pairs fills
in missing fx rates, skips when neither row has fees, and otherwise
rewrites the fee columns.  Returns the final values of the two row
objects. -/
def migrate (tr1 tr2 : Transaction) : Except String TPair :=
  if tr1.TransactionGroup ≠ tr2.TransactionGroup then
    .error "Wrong transaction pair detected"
  else
    -- object references: credit/debit pick one of the two argument objects
    let c : Bool := tr1.type == "CREDIT"
    let d : Bool := tr1.type == "DEBIT"
    if tr1.ExpenseId ≠ none ∧ tr1.ExpenseId = tr2.ExpenseId then
      .ok (tr1, tr2)
    else if tr1.OrderId ≠ none ∧ tr1.OrderId = tr2.OrderId then
      let s0 : TPair := (tr1, tr2)
      let s1 := setSlot s0 c (ensureHostCurrencyFxRate (getSlot s0 c))
      let s2 := setSlot s1 d (ensureHostCurrencyFxRate (getSlot s1 d))
      if ¬ hasFees s2.1 ∧ ¬ hasFees s2.2 then
        .ok s2
      else
        .ok (rewriteFees s2 c d)
    else
      .ok (tr1, tr2)

end Migration

/-- The options record produced by `parseCommandLineArguments`.  `limit`
holds the numeric value of the `--limit` string when the flag was passed
(`none` otherwise); `batchSize` keeps the raw JS value (`args.batch_size`
is the number 10 when defaulted and a string when passed). -/
structure Options where
  dryRun : Bool
  verbose : Bool
  limit : Option Nat
  batchSize : JSVal
deriving DecidableEq, Repr

/-- The command line as argparse hands it over: `batch_size` is the raw
string of `--batch-size` when the flag was passed, `none` otherwise. -/
structure CLIArgs where
  verbose : Bool
  notdryrun : Bool
  limit : Option Nat
  batch_size : Option String
deriving DecidableEq, Repr

/-- `parseCommandLineArguments`: argparse gives `args.batch_size` the
literal `defaultValue` 10 (a number) when `--batch-size` is absent, and the
flag's string otherwise; the script then computes
`batchSize: args.batch_size || 100`. -/
def parseCommandLineArguments (args : CLIArgs) : Options :=
  let batchArg : JSVal :=
    match args.batch_size with
    | some s => .str s
    | none => .num 10
  { dryRun := !args.notdryrun
    verbose := args.verbose
    limit := args.limit
    batchSize := if jsTruthy batchArg then batchArg else .num 100 }

namespace Migration

/-- The error raised by the pairing sanity check of `run`:
`wrongPair id` is the explicit `throw new Error("Cannot find pair for the
transaction id ...")` on a group mismatch, and `unpairedRow` is the
`TypeError` raised by reading `transactions[i + 1].TransactionGroup` when
the batch ends on a lone row. -/
inductive PairingError where
  | wrongPair (id : Int)
  | unpairedRow
deriving DecidableEq, Repr

/-- The inner `for (let i = 0; i < transactions.length; i += 2)` loop of
`run` over one fetched batch: checks each adjacent pair's groups, fires
`migrate` on each pair that passes (its promise is not awaited, so its
result is discarded), and returns the list of pair ids handed to `migrate`
together with the error that stopped the loop, if any. -/
def checkBatch : List Transaction → List (Int × Int) × Option PairingError
  | [] => ([], none)
  | [_] => ([], some .unpairedRow)
  | t1 :: t2 :: rest =>
    if t1.TransactionGroup ≠ t2.TransactionGroup then
      ([], some (.wrongPair t1.id))
    else
      let _fired := migrate t1 t2
      let r := checkBatch rest
      ((t1.id, t2.id) :: r.1, r.2)

/-- The `while (this.offset < count)` loop of `run`, with explicit fuel
(`none` means the fuel ran out before the loop terminated).  `store` is the
table of non-deleted transactions ordered by `TransactionGroup`; a fetch is
`findAll` with `limit`/`offset`, and the offset advances by the length of
the fetched batch.  The store is threaded through and returned so that the
absence of persistence writes is part of the statement. -/
def runLoop (store : List Transaction) (batchSize count : Nat) :
    Nat → Nat → List (Int × Int) →
    Option (List (Int × Int) × Option PairingError) × List Transaction
  | 0, _, _ => (none, store)
  | fuel + 1, offset, log =>
    if offset < count then
      let batch := (store.drop offset).take batchSize
      let offset2 := offset + batch.length
      match checkBatch batch with
      | (plog, some e) => (some (log ++ plog, some e), store)
      | (plog, none) => runLoop store batchSize count fuel offset2 (log ++ plog)
    else
      (some (log, none), store)

/-- `run`: the whole migration.  The effective count is
`this.options.limit || count(non-deleted transactions)`; the scan starts at
offset 0 with an empty log of migrated pairs. -/
def run (options : Options) (store : List Transaction) (fuel : Nat) :
    Option (List (Int × Int) × Option PairingError) × List Transaction :=
  runLoop store (jsValToNat options.batchSize) (options.limit.getD store.length)
    fuel 0 []

/-- `run` diverges on the given inputs: no amount of fuel makes the while
loop terminate. -/
def RunDiverges (options : Options) (store : List Transaction) : Prop :=
  ∀ fuel, (run options store fuel).1 = none

/-- A list of rows in which every adjacent pair `(2i, 2i+1)` shares its
`TransactionGroup` — the shape the sanity check of `run` accepts. -/
inductive WellPaired : List Transaction → Prop
  | nil : WellPaired []
  | cons (t1 t2 : Transaction) (rest : List Transaction)
      (h : t1.TransactionGroup = t2.TransactionGroup)
      (hr : WellPaired rest) : WellPaired (t1 :: t2 :: rest)

/-- The ids of the adjacent pairs of a list, taken two rows at a time. -/
def pairIds : List Transaction → List (Int × Int)
  | t1 :: t2 :: rest => (t1.id, t2.id) :: pairIds rest
  | _ => []

/-- The suffix starts with a pairing violation: it is a lone final row, or
its first two rows have different groups. -/
def ViolStart : List Transaction → Prop
  | [] => False
  | [_] => True
  | t1 :: t2 :: _ => t1.TransactionGroup ≠ t2.TransactionGroup

/-- The error the sanity check raises on a violating suffix. -/
def errOf : List Transaction → PairingError
  | t1 :: _ :: _ => .wrongPair t1.id
  | _ => .unpairedRow

end Migration

/-! ## The Stripe order processor

Embedding of the payment-provider module whose `processOrder` drives the
charge/subscription workflow (the module exported at the end of
`test/usergroup.routes.test.js`). -/

/-- A calendar date with time of day, in the fixed timezone basis of the
embedding (JS `Date` operations below act on the local-time fields; the
model uses a single basis, so "epoch" means epoch in that same basis).
`month` is 0-based as in JS `getMonth`. -/
structure JSDate where
  year : Int
  month : Int
  day : Int
  msOfDay : Int
deriving DecidableEq, Repr

/-- Days since 1970-01-01 of the civil date `(y, m, d)` with `m` 1-based;
standard proleptic-Gregorian day count. -/
def daysFromCivil (y m d : Int) : Int :=
  let yAdj := if m ≤ 2 then y - 1 else y
  let era := yAdj.fdiv 400
  let yoe := yAdj - era * 400
  let mp := (m + 9).emod 12
  let doy := (153 * mp + 2).fdiv 5 + (d - 1)
  let doe := yoe * 365 + yoe.fdiv 4 - yoe.fdiv 100 + doy
  era * 146097 + doe - 719468

/-- Milliseconds since the epoch of a `JSDate` (its `getTime()`). -/
def epochMs (d : JSDate) : Int :=
  daysFromCivil d.year (d.month + 1) d.day * 86400000 + d.msOfDay

/-- JS `setDate(1)`: force the day-of-month to 1, keeping time of day. -/
def setDate1 (d : JSDate) : JSDate :=
  { d with day := 1 }

/-- JS `setMonth(getMonth() + k)`: advance by `k` calendar months, with
month overflow normalized into the year (the day is 1 here, so no
day-of-month clamping arises). -/
def setMonthAdd (d : JSDate) (k : Int) : JSDate :=
  let m := d.month + k
  { d with year := d.year + m.fdiv 12, month := m.emod 12 }

/-- `getSubscriptionTrialEndDate(originalDate, interval)`: copy the date,
force the day-of-month to 1, then advance one calendar month for interval
`month` or twelve for `year`, and return `Math.floor(ms / 1000)` (epoch
seconds); any other interval yields `null`. -/
def getSubscriptionTrialEndDate (originalDate : JSDate) (interval : String) :
    Option Int :=
  let newDate := setDate1 originalDate
  if interval == "month" then
    some ((epochMs (setMonthAdd newDate 1)).fdiv 1000)
  else if interval == "year" then
    some ((epochMs (setMonthAdd newDate 12)).fdiv 1000)
  else
    none

namespace Payments

/-- `parseInt` applied to a JS number: truncation toward zero. -/
def jsTrunc (q : Rat) : Int :=
  if 0 ≤ q then Rat.floor q else Rat.ceil q

/-- Modelled from the spec: the platform fee percent constant
`constants.OC_FEE_PERCENT` (its module is not under `src/`; the claims
settled here do not depend on its value). -/
def OC_FEE_PERCENT : Rat := 5

/-- A Stripe connected account of a host. -/
structure StripeAccount where
  username : String
deriving DecidableEq, Repr

/-- The argument object of `stripe.createCharge`. -/
structure ChargeReq where
  amount : Int
  currency : String
  source : String
  description : String
  application_fee : Int
deriving DecidableEq, Repr

/-- The balance transaction the gateway reports for a charge, with the two
fees `stripe.extractFees` reads off it (modelled from the spec: the
gateway-processor fee and the platform application fee). -/
structure BalanceTransaction where
  amount : Int
  currency : String
  applicationFee : Int
  stripeFee : Int
deriving DecidableEq, Repr

/-- The argument object of `stripe.createSubscription`. -/
structure SubscriptionReq where
  plan : String
  application_fee_percent : Rat
  trial_end : Option Int
deriving DecidableEq, Repr

/-- The injected gateway capability set (each call is fallible). -/
structure Gateway where
  getHostStripeAccount : Except String StripeAccount
  createCustomer : Option StripeAccount → String → Except String String
  createToken : StripeAccount → Option String → Except String String
  createCharge : StripeAccount → ChargeReq → Except String String
  retrieveBalanceTransaction :
    StripeAccount → String → Except String BalanceTransaction
  getOrCreatePlan :
    StripeAccount → String → Int → String → Except String String
  createSubscription :
    StripeAccount → String → SubscriptionReq → Except String String

/-- The immutable inputs of one `processOrder` call: the order row with its
nested collective, payment method and optional subscription. -/
structure OrderEnv where
  orderId : Int
  totalAmount : Int
  currency : String
  description : String
  createdAt : JSDate
  subscriptionInterval : Option String
  pmToken : String
  hostFeePercent : Rat
deriving DecidableEq, Repr

/-- The transaction payload handed to `models.Transaction.createFromPayload`
(which persists the CREDIT/DEBIT pair). -/
structure TransactionPayload where
  type : String
  OrderId : Int
  amount : Int
  currency : String
  txnCurrency : String
  amountInTxnCurrency : Int
  txnCurrencyFxRate : Rat
  hostFeeInTxnCurrency : Int
  platformFeeInTxnCurrency : Int
  paymentProcessorFeeInTxnCurrency : Int
  description : String
deriving DecidableEq, Repr

/-- The persisted state `processOrder` reads and writes: the payment
method's mutable columns, the order's `processedAt`, the stored transaction
pairs, the subscription row, and the audit records. -/
structure Store where
  pmCustomerId : Option String
  pmCustomerIdForHost : List (String × String)
  pmConfirmedAt : Option Int
  orderProcessedAt : Option Int
  transactions : List TransactionPayload
  subscriptionStripeId : Option String
  subscriptionActive : Bool
  activities : List String
  backerAdded : Bool
deriving DecidableEq, Repr

/-- `getOrCreateCustomerIdForHost`: reuse the cached customer id for this
host from `paymentMethod.data.CustomerIdForHost`, or create a token from
the platform customer, create a host-level customer from it, and persist
the new id into the cache. -/
def getOrCreateCustomerIdForHost (g : Gateway)
    (host : StripeAccount) (s : Store) : Except String String × Store :=
  match s.pmCustomerIdForHost.lookup host.username with
  | some cid => (.ok cid, s)
  | none =>
    match g.createToken host s.pmCustomerId with
    | .error e => (.error e, s)
    | .ok tokenId =>
      match g.createCustomer (some host) tokenId with
      | .error e => (.error e, s)
      | .ok customerId =>
        (.ok customerId,
         { s with pmCustomerIdForHost :=
            s.pmCustomerIdForHost ++ [(host.username, customerId)] })

/-- `createSubscription(hostStripeAccount)`: get or create the plan, get or
create the host-level customer, create the gateway subscription with the
computed trial end, persist the returned subscription id, activate the
local subscription, and record the `SUBSCRIPTION_CONFIRMED` activity. -/
def createSubscriptionFlow (g : Gateway) (env : OrderEnv) (interval : String)
    (host : StripeAccount) (s : Store) : Except String Unit × Store :=
  match g.getOrCreatePlan host interval env.totalAmount env.currency with
  | .error e => (.error e, s)
  | .ok planId =>
    match getOrCreateCustomerIdForHost g host s with
    | (.error e, s1) => (.error e, s1)
    | (.ok customerId, s1) =>
      match g.createSubscription host customerId
          { plan := planId
            application_fee_percent := OC_FEE_PERCENT
            trial_end := getSubscriptionTrialEndDate env.createdAt interval } with
      | .error e => (.error e, s1)
      | .ok stripeSubscriptionId =>
        let s2 := { s1 with subscriptionStripeId := some stripeSubscriptionId }
        let s3 := { s2 with subscriptionActive := true }
        let s4 := { s3 with activities :=
          s3.activities ++ ["subscription.confirmed"] }
        (.ok (), s4)

/-- `createChargeAndTransactions(hostStripeAccount)`: create the charge,
retrieve its balance transaction, compute the fee breakdown and the
`txnCurrencyFxRate`, and persist the transaction pair from the payload. -/
def createChargeAndTransactions (g : Gateway) (env : OrderEnv)
    (host : StripeAccount) (hostStripeTokenId : String) (s : Store) :
    Except String TransactionPayload × Store :=
  match g.createCharge host
      { amount := env.totalAmount
        currency := env.currency
        source := hostStripeTokenId
        description := env.description
        application_fee :=
          jsTrunc (env.totalAmount * OC_FEE_PERCENT / 100) } with
  | .error e => (.error e, s)
  | .ok chargeBalanceTransactionRef =>
    match g.retrieveBalanceTransaction host chargeBalanceTransactionRef with
    | .error e => (.error e, s)
    | .ok balanceTransaction =>
      let payload : TransactionPayload :=
        { type := "DONATION"
          OrderId := env.orderId
          amount := env.totalAmount
          currency := env.currency
          txnCurrency := balanceTransaction.currency
          amountInTxnCurrency := balanceTransaction.amount
          txnCurrencyFxRate :=
            (env.totalAmount : Rat) / (balanceTransaction.amount : Rat)
          hostFeeInTxnCurrency :=
            jsTrunc (balanceTransaction.amount * env.hostFeePercent / 100)
          platformFeeInTxnCurrency := balanceTransaction.applicationFee
          paymentProcessorFeeInTxnCurrency := balanceTransaction.stripeFee
          description := env.description }
      (.ok payload, { s with transactions := s.transactions ++ [payload] })

/-- `processOrder(order)`: the promise chain — resolve the host account,
ensure a platform customer, create a host-scoped token, charge and persist
the transaction pair, create the gateway subscription when one was
supplied, grant the backer role, mark the order processed and the payment
method confirmed, and return the transaction payload.  A rejection at any
step skips every later step while keeping the persistence effects already
performed. -/
def processOrder (g : Gateway) (env : OrderEnv) (now : Int) (s0 : Store) :
    Except String TransactionPayload × Store :=
  match g.getHostStripeAccount with
  | .error e => (.error e, s0)
  | .ok host =>
    let step2 : Except String String × Store :=
      match s0.pmCustomerId with
      | some cid => (.ok cid, s0)
      | none =>
        match g.createCustomer none env.pmToken with
        | .error e => (.error e, s0)
        | .ok customerId =>
          (.ok customerId, { s0 with pmCustomerId := some customerId })
    match step2 with
    | (.error e, s1) => (.error e, s1)
    | (.ok platformCustomerId, s1) =>
      match g.createToken host (some platformCustomerId) with
      | .error e => (.error e, s1)
      | .ok hostStripeTokenId =>
        match createChargeAndTransactions g env host hostStripeTokenId s1 with
        | (.error e, s2) => (.error e, s2)
        | (.ok payload, s2) =>
          let subStep : Except String Unit × Store :=
            match env.subscriptionInterval with
            | some interval => createSubscriptionFlow g env interval host s2
            | none => (.ok (), s2)
          match subStep with
          | (.error e, s3) => (.error e, s3)
          | (.ok _, s3) =>
            let s4 := { s3 with backerAdded := true }
            let s5 := { s4 with orderProcessedAt := some now }
            let s6 := { s5 with pmConfirmedAt := some now }
            (.ok payload, s6)

end Payments

/-! ## Spec-side definitions and concrete fixtures -/

/-- The net-value formula exactly as the spec's words state it:
`round(amount + hostFee + platformFee + paymentProcessorFee) * fxRate`,
with `amount` read as the transaction's `amount` column. -/
def netValueSpec (tr : Transaction) : Rat :=
  (jsRound ((tr.amount
      + tr.hostFeeInHostCurrency
      + tr.platformFeeInHostCurrency
      + tr.paymentProcessorFeeInHostCurrency : Int) : Rat) : Int)
    * Migration.fxVal tr.hostCurrencyFxRate

/-- The net-value formula with the amount read from `amountInHostCurrency`,
the column the source actually sums (amended reading of the spec). -/
def netValueSpecAmended (tr : Transaction) : Rat :=
  (jsRound ((tr.amountInHostCurrency
      + tr.hostFeeInHostCurrency
      + tr.platformFeeInHostCurrency
      + tr.paymentProcessorFeeInHostCurrency : Int) : Rat) : Int)
    * Migration.fxVal tr.hostCurrencyFxRate

/-- The credit row of the spec's end-to-end example pair (fees 0, 0, 0). -/
def trCreditEx : Transaction :=
  { id := 1, type := "CREDIT", TransactionGroup := "g1", OrderId := some 7,
    ExpenseId := none, amount := 1000, amountInHostCurrency := 1000,
    hostFeeInHostCurrency := 0, platformFeeInHostCurrency := 0,
    paymentProcessorFeeInHostCurrency := 0, hostCurrencyFxRate := some 1,
    netAmountInCollectiveCurrency := 1000 }

/-- The debit row of the spec's end-to-end example pair
(fees 50, 30, 20; fxRate 1; net -1000). -/
def trDebitEx : Transaction :=
  { id := 2, type := "DEBIT", TransactionGroup := "g1", OrderId := some 7,
    ExpenseId := none, amount := -1000, amountInHostCurrency := -1000,
    hostFeeInHostCurrency := 50, platformFeeInHostCurrency := 30,
    paymentProcessorFeeInHostCurrency := 20, hostCurrencyFxRate := some 1,
    netAmountInCollectiveCurrency := -1000 }

/-- A cross-currency row: `amount` (collective currency) differs from
`amountInHostCurrency` (host currency), with fx rate 1/2. -/
def trMixedCurrency : Transaction :=
  { id := 3, type := "CREDIT", TransactionGroup := "g2", OrderId := some 8,
    ExpenseId := none, amount := 100, amountInHostCurrency := 200,
    hostFeeInHostCurrency := 0, platformFeeInHostCurrency := 0,
    paymentProcessorFeeInHostCurrency := 0, hostCurrencyFxRate := some (1/2),
    netAmountInCollectiveCurrency := 100 }

/-- A row whose `hostCurrencyFxRate` column holds the value 0 (set, but
JS-falsy) while the two amount columns agree. -/
def trFxZero : Transaction :=
  { id := 4, type := "CREDIT", TransactionGroup := "g3", OrderId := some 9,
    ExpenseId := none, amount := 100, amountInHostCurrency := 100,
    hostFeeInHostCurrency := 0, platformFeeInHostCurrency := 0,
    paymentProcessorFeeInHostCurrency := 0, hostCurrencyFxRate := some 0,
    netAmountInCollectiveCurrency := 100 }

/-- An expense-linked pair (both rows referencing expense 5). -/
def trExpCredit : Transaction :=
  { id := 5, type := "CREDIT", TransactionGroup := "g4", OrderId := none,
    ExpenseId := some 5, amount := 700, amountInHostCurrency := 700,
    hostFeeInHostCurrency := 10, platformFeeInHostCurrency := 0,
    paymentProcessorFeeInHostCurrency := 0, hostCurrencyFxRate := some 1,
    netAmountInCollectiveCurrency := 700 }

/-- The debit side of the expense-linked pair. -/
def trExpDebit : Transaction :=
  { id := 6, type := "DEBIT", TransactionGroup := "g4", OrderId := none,
    ExpenseId := some 5, amount := -700, amountInHostCurrency := -700,
    hostFeeInHostCurrency := 10, platformFeeInHostCurrency := 0,
    paymentProcessorFeeInHostCurrency := 0, hostCurrencyFxRate := some 1,
    netAmountInCollectiveCurrency := -700 }

/-- A lone row with no partner in the scan (odd dataset). -/
def trLone : Transaction :=
  { id := 9, type := "CREDIT", TransactionGroup := "g9", OrderId := some 11,
    ExpenseId := none, amount := 500, amountInHostCurrency := 500,
    hostFeeInHostCurrency := 0, platformFeeInHostCurrency := 0,
    paymentProcessorFeeInHostCurrency := 0, hostCurrencyFxRate := some 1,
    netAmountInCollectiveCurrency := 500 }

/-- Options as parsed from a bare command line except `--limit 1`:
dry run, default batch size. -/
def optsLimitOne : Options :=
  { dryRun := true, verbose := false, limit := some 1, batchSize := .num 10 }

/-- Options as parsed from a bare command line (no flags). -/
def optsDefault : Options :=
  { dryRun := true, verbose := false, limit := none, batchSize := .num 10 }

/-- A gateway whose provisioning, charge and plan calls all succeed and
whose `createSubscription` always fails. -/
def gwSubFail : Payments.Gateway :=
  { getHostStripeAccount := .ok ⟨"acct_host"⟩
    createCustomer := fun _ _ => .ok "cus_platform"
    createToken := fun _ _ => .ok "tok_shared"
    createCharge := fun _ _ => .ok "txn_bt_ref"
    retrieveBalanceTransaction := fun _ _ =>
      .ok { amount := 100000, currency := "usd",
            applicationFee := 5000, stripeFee := 320 }
    getOrCreatePlan := fun _ _ _ _ => .ok "plan_month_100000_usd"
    createSubscription := fun _ _ _ => .error "subscription declined" }

/-- A monthly order of 1000.00 usd created on 2020-03-15. -/
def envSub : Payments.OrderEnv :=
  { orderId := 1, totalAmount := 100000, currency := "usd",
    description := "monthly donation", createdAt := ⟨2020, 2, 15, 0⟩,
    subscriptionInterval := some "month", pmToken := "tok_pm",
    hostFeePercent := 10 }

/-- An initial store: platform customer and host customer already cached,
order not processed, payment method not confirmed, no transactions. -/
def store0 : Payments.Store :=
  { pmCustomerId := some "cus_platform"
    pmCustomerIdForHost := [("acct_host", "cus_host")]
    pmConfirmedAt := none, orderProcessedAt := none, transactions := []
    subscriptionStripeId := none, subscriptionActive := false
    activities := [], backerAdded := false }

/-! ## Helper lemmas -/

namespace Migration

theorem toNegative_nonpos (v : Int) : toNegative v ≤ 0 := by
  unfold toNegative
  split <;> omega

theorem ensureFx_amount (tr : Transaction) :
    (ensureHostCurrencyFxRate tr).amount = tr.amount := by
  unfold ensureHostCurrencyFxRate
  split <;> rfl

theorem ensureFx_amountInHost (tr : Transaction) :
    (ensureHostCurrencyFxRate tr).amountInHostCurrency
      = tr.amountInHostCurrency := by
  unfold ensureHostCurrencyFxRate
  split <;> rfl

theorem ensureFx_net (tr : Transaction) :
    (ensureHostCurrencyFxRate tr).netAmountInCollectiveCurrency
      = tr.netAmountInCollectiveCurrency := by
  unfold ensureHostCurrencyFxRate
  split <;> rfl

theorem ensureFx_group (tr : Transaction) :
    (ensureHostCurrencyFxRate tr).TransactionGroup = tr.TransactionGroup := by
  unfold ensureHostCurrencyFxRate
  split <;> rfl

theorem ensureFx_hostFee (tr : Transaction) :
    (ensureHostCurrencyFxRate tr).hostFeeInHostCurrency
      = tr.hostFeeInHostCurrency := by
  unfold ensureHostCurrencyFxRate
  split <;> rfl

theorem ensureFx_platformFee (tr : Transaction) :
    (ensureHostCurrencyFxRate tr).platformFeeInHostCurrency
      = tr.platformFeeInHostCurrency := by
  unfold ensureHostCurrencyFxRate
  split <;> rfl

theorem ensureFx_ppFee (tr : Transaction) :
    (ensureHostCurrencyFxRate tr).paymentProcessorFeeInHostCurrency
      = tr.paymentProcessorFeeInHostCurrency := by
  unfold ensureHostCurrencyFxRate
  split <;> rfl

theorem ensureFx_hasFees (tr : Transaction) :
    hasFees (ensureHostCurrencyFxRate tr) = hasFees tr := by
  unfold hasFees
  rw [ensureFx_hostFee, ensureFx_platformFee, ensureFx_ppFee]

theorem rewriteFees_credit_first (a b : Transaction) :
    rewriteFees (a, b) true false =
      ({ a with
          hostFeeInHostCurrency := toNegative a.hostFeeInHostCurrency
          platformFeeInHostCurrency := toNegative a.platformFeeInHostCurrency
          paymentProcessorFeeInHostCurrency :=
            toNegative a.paymentProcessorFeeInHostCurrency },
       { b with
          hostFeeInHostCurrency := toNegative a.hostFeeInHostCurrency
          platformFeeInHostCurrency := toNegative a.platformFeeInHostCurrency
          paymentProcessorFeeInHostCurrency :=
            toNegative a.paymentProcessorFeeInHostCurrency }) := rfl

end Migration

/-! ## Claim C1 -/

/-- C1 (counterexample): on the spec's own example pair (credit fees
0, 0, 0; debit fees 50, 30, 20; fxRate 1), `migrate` leaves the credit row
unchanged and sets the DEBIT row's fee columns to 0, 0, 0 — the negation of
the CREDIT row's fees — not to `negate` of the debit row's own fees
(-50, -30, -20); the debit net value afterwards is -1000, not -1100. -/
theorem claim1_counterexample :
    Migration.migrate trCreditEx trDebitEx =
      .ok (trCreditEx,
        { trDebitEx with
            hostFeeInHostCurrency := 0
            platformFeeInHostCurrency := 0
            paymentProcessorFeeInHostCurrency := 0 })
    ∧ (Migration.toNegative trDebitEx.hostFeeInHostCurrency,
       Migration.toNegative trDebitEx.platformFeeInHostCurrency,
       Migration.toNegative trDebitEx.paymentProcessorFeeInHostCurrency)
        = (-50, -30, -20)
    ∧ Migration.trValue
        { trDebitEx with
            hostFeeInHostCurrency := 0
            platformFeeInHostCurrency := 0
            paymentProcessorFeeInHostCurrency := 0 } = -1000 := by
  refine ⟨rfl, by decide, ?_⟩
  norm_num [Migration.trValue, Migration.fxVal, jsRound, trDebitEx]

/-- C1 (amended): for an order-linked pair with non-zero fees whose first
row is the CREDIT row, `migrate` forces all three fee columns on both rows
to the non-positive value obtained by applying `toNegative` to the CREDIT
row's own fee value (the debit row's own fee values are discarded); on the
spec's example pair the debit fee columns therefore become 0, 0, 0 and its
net value `round(-1000+0+0+0)*1 = -1000`. -/
theorem claim1_amended (tr1 tr2 : Transaction)
    (hg : tr1.TransactionGroup = tr2.TransactionGroup)
    (hexp : ¬ (tr1.ExpenseId ≠ none ∧ tr1.ExpenseId = tr2.ExpenseId))
    (hord : tr1.OrderId ≠ none ∧ tr1.OrderId = tr2.OrderId)
    (htype : tr1.type = "CREDIT")
    (hfees : Migration.hasFees tr1 = true ∨ Migration.hasFees tr2 = true) :
    ∃ p : Migration.TPair, Migration.migrate tr1 tr2 = .ok p
      ∧ p.1.hostFeeInHostCurrency
          = Migration.toNegative tr1.hostFeeInHostCurrency
      ∧ p.2.hostFeeInHostCurrency
          = Migration.toNegative tr1.hostFeeInHostCurrency
      ∧ p.1.platformFeeInHostCurrency
          = Migration.toNegative tr1.platformFeeInHostCurrency
      ∧ p.2.platformFeeInHostCurrency
          = Migration.toNegative tr1.platformFeeInHostCurrency
      ∧ p.1.paymentProcessorFeeInHostCurrency
          = Migration.toNegative tr1.paymentProcessorFeeInHostCurrency
      ∧ p.2.paymentProcessorFeeInHostCurrency
          = Migration.toNegative tr1.paymentProcessorFeeInHostCurrency
      ∧ p.1.hostFeeInHostCurrency ≤ 0
      ∧ p.2.hostFeeInHostCurrency ≤ 0
      ∧ p.1.platformFeeInHostCurrency ≤ 0
      ∧ p.2.platformFeeInHostCurrency ≤ 0
      ∧ p.1.paymentProcessorFeeInHostCurrency ≤ 0
      ∧ p.2.paymentProcessorFeeInHostCurrency ≤ 0 := by
  have hC : (tr1.type == "CREDIT") = true := by simp [htype]
  have hD : (tr1.type == "DEBIT") = false := by simp [htype]
  refine ⟨Migration.rewriteFees
      (Migration.ensureHostCurrencyFxRate tr1,
       Migration.ensureHostCurrencyFxRate tr2) true false, ?_, ?_⟩
  · unfold Migration.migrate
    rw [if_neg (not_not_intro hg), if_neg hexp, if_pos hord]
    simp only [hC, hD, Migration.getSlot, Migration.setSlot, if_true,
      Bool.false_eq_true, if_false]
    rw [if_neg]
    intro hno
    rw [Migration.ensureFx_hasFees, Migration.ensureFx_hasFees] at hno
    rcases hfees with hf | hf
    · rw [hf] at hno
      exact absurd rfl hno.1
    · rw [hf] at hno
      exact absurd rfl hno.2
  · rw [Migration.rewriteFees_credit_first]
    refine ⟨?_, ?_, ?_, ?_, ?_, ?_, ?_, ?_, ?_, ?_, ?_, ?_⟩ <;>
      simp [Migration.ensureFx_hostFee, Migration.ensureFx_platformFee,
        Migration.ensureFx_ppFee, Migration.toNegative_nonpos]

/-- C1 (witness): the amended statement instantiated on the spec's example
pair. -/
theorem claim1_witness :
    ∃ p : Migration.TPair, Migration.migrate trCreditEx trDebitEx = .ok p
      ∧ p.1.hostFeeInHostCurrency
          = Migration.toNegative trCreditEx.hostFeeInHostCurrency
      ∧ p.2.hostFeeInHostCurrency
          = Migration.toNegative trCreditEx.hostFeeInHostCurrency
      ∧ p.1.platformFeeInHostCurrency
          = Migration.toNegative trCreditEx.platformFeeInHostCurrency
      ∧ p.2.platformFeeInHostCurrency
          = Migration.toNegative trCreditEx.platformFeeInHostCurrency
      ∧ p.1.paymentProcessorFeeInHostCurrency
          = Migration.toNegative trCreditEx.paymentProcessorFeeInHostCurrency
      ∧ p.2.paymentProcessorFeeInHostCurrency
          = Migration.toNegative trCreditEx.paymentProcessorFeeInHostCurrency
      ∧ p.1.hostFeeInHostCurrency ≤ 0
      ∧ p.2.hostFeeInHostCurrency ≤ 0
      ∧ p.1.platformFeeInHostCurrency ≤ 0
      ∧ p.2.platformFeeInHostCurrency ≤ 0
      ∧ p.1.paymentProcessorFeeInHostCurrency ≤ 0
      ∧ p.2.paymentProcessorFeeInHostCurrency ≤ 0 :=
  claim1_amended trCreditEx trDebitEx rfl (by decide) (by decide) rfl
    (Or.inr (by decide))

/-! ## Claim C2 -/

/-- C2 (counterexample): on a cross-currency row with `amount = 100`,
`amountInHostCurrency = 200` and fx rate 1/2, the code's net value is 100
(it sums `amountInHostCurrency`), while the claim's formula
`round(amount + fees) * fxRate` gives 50; the consistency check compares
the code's value, returning true here. -/
theorem claim2_counterexample :
    Migration.trValue trMixedCurrency = 100
    ∧ netValueSpec trMixedCurrency = 50
    ∧ Migration.verify trMixedCurrency = true := by
  have hv : Migration.trValue trMixedCurrency = 100 := by
    norm_num [Migration.trValue, Migration.fxVal, jsRound, trMixedCurrency]
  refine ⟨hv, ?_, ?_⟩
  · norm_num [netValueSpec, Migration.fxVal, jsRound, trMixedCurrency]
  · unfold Migration.verify
    rw [hv]
    norm_num [trMixedCurrency]

/-- C2 (amended): the net value computed by the reconciliation code equals
`round(amountInHostCurrency + hostFee + platformFee + paymentProcessorFee)
* fxRate` — the amount summed is `amountInHostCurrency`, not `amount` —
with the rounding applied to the sum before the multiplication by the fx
rate; and the consistency check returns true exactly when this net value
equals `tr.netAmountInCollectiveCurrency`. -/
theorem claim2_amended (tr : Transaction) :
    Migration.trValue tr = netValueSpecAmended tr
    ∧ (Migration.verify tr = true
        ↔ Migration.trValue tr = (tr.netAmountInCollectiveCurrency : Rat)) := by
  exact ⟨rfl, by unfold Migration.verify; exact decide_eq_true_iff⟩

/-! ## Claim C8 -/

/-- C8 (counterexample): a row whose `hostCurrencyFxRate` column holds the
existing value 0 with equal amount columns: `ensureHostCurrencyFxRate`
overwrites the existing rate with 1, because the JS guard
`!tr.hostCurrencyFxRate` treats 0 like an unset rate. -/
theorem claim8_counterexample :
    trFxZero.hostCurrencyFxRate = some 0
    ∧ (Migration.ensureHostCurrencyFxRate trFxZero).hostCurrencyFxRate
        = some 1 := by
  exact ⟨rfl, by decide⟩

/-- C8 (amended): `ensureHostCurrencyFxRate` sets the rate to exactly 1
when `amount = amountInHostCurrency` and the rate is JS-falsy (`NULL` or
the existing value 0); it changes nothing when the two amounts differ, and
never overwrites an existing non-zero rate. -/
theorem claim8_amended (tr : Transaction) :
    (tr.amount = tr.amountInHostCurrency
      → Migration.fxFalsy tr.hostCurrencyFxRate = true
      → (Migration.ensureHostCurrencyFxRate tr).hostCurrencyFxRate = some 1)
    ∧ (tr.amount ≠ tr.amountInHostCurrency
        → Migration.ensureHostCurrencyFxRate tr = tr)
    ∧ (∀ r : Rat, tr.hostCurrencyFxRate = some r → r ≠ 0
        → Migration.ensureHostCurrencyFxRate tr = tr) := by
  refine ⟨?_, ?_, ?_⟩
  · intro ha hf
    unfold Migration.ensureHostCurrencyFxRate
    rw [if_pos ⟨ha, hf⟩]
  · intro ha
    unfold Migration.ensureHostCurrencyFxRate
    rw [if_neg]
    intro hc
    exact ha hc.1
  · intro r hr hr0
    unfold Migration.ensureHostCurrencyFxRate
    rw [if_neg]
    intro hc
    have h2 := hc.2
    rw [hr] at h2
    exact hr0 (by simpa [Migration.fxFalsy] using h2)

/-- C8 (witness): the amended statement instantiated — the zero-rate row
gets rate 1, and the cross-currency row (differing amounts, rate 1/2) is
left completely unchanged. -/
theorem claim8_witness :
    (Migration.ensureHostCurrencyFxRate trFxZero).hostCurrencyFxRate = some 1
    ∧ Migration.ensureHostCurrencyFxRate trMixedCurrency = trMixedCurrency := by
  refine ⟨(claim8_amended trFxZero).1 rfl (by decide), ?_⟩
  exact (claim8_amended trMixedCurrency).2.2 (1/2) rfl (by norm_num)

/-! ## Claim C9 -/

/-- C9 (counterexample): with `--batch-size` absent, argparse's
`defaultValue` 10 is truthy, so `args.batch_size || 100` yields 10, not
100: the scan's batch size is 10. -/
theorem claim9_counterexample :
    (parseCommandLineArguments
        { verbose := false, notdryrun := false, limit := none,
          batch_size := none }).batchSize = .num 10
    ∧ jsValToNat (parseCommandLineArguments
        { verbose := false, notdryrun := false, limit := none,
          batch_size := none }).batchSize = 10 := by
  exact ⟨rfl, rfl⟩

/-- C9 (amended): when the `--batch-size` flag is not passed on the command
line, the batch size used by the reconciliation job's paginated scan is 10
(argparse's `defaultValue` 10 preempts the dead `|| 100` fallback),
whatever the other flags are. -/
theorem claim9_amended (v d : Bool) (l : Option Nat) :
    (parseCommandLineArguments
        { verbose := v, notdryrun := d, limit := l,
          batch_size := none }).batchSize = .num 10
    ∧ jsValToNat (parseCommandLineArguments
        { verbose := v, notdryrun := d, limit := l,
          batch_size := none }).batchSize = 10 := by
  exact ⟨rfl, rfl⟩

/-! ## Claim C3 -/

/-- C3 (confirmed): a successful `migrate` call never changes `amount`,
`netAmountInCollectiveCurrency` or `TransactionGroup` of either row, and
for an expense-linked pair (same non-null `ExpenseId`) as well as for a
pair with mismatched or absent linkage it changes nothing at all; only the
order-linked branch may touch the fee columns and `hostCurrencyFxRate`. -/
theorem claim3_frame (tr1 tr2 t1 t2 : Transaction)
    (h : Migration.migrate tr1 tr2 = .ok (t1, t2)) :
    (t1.amount = tr1.amount
      ∧ t1.netAmountInCollectiveCurrency = tr1.netAmountInCollectiveCurrency
      ∧ t1.TransactionGroup = tr1.TransactionGroup
      ∧ t2.amount = tr2.amount
      ∧ t2.netAmountInCollectiveCurrency = tr2.netAmountInCollectiveCurrency
      ∧ t2.TransactionGroup = tr2.TransactionGroup)
    ∧ ((tr1.ExpenseId ≠ none ∧ tr1.ExpenseId = tr2.ExpenseId)
        → t1 = tr1 ∧ t2 = tr2)
    ∧ (¬ (tr1.ExpenseId ≠ none ∧ tr1.ExpenseId = tr2.ExpenseId)
        → ¬ (tr1.OrderId ≠ none ∧ tr1.OrderId = tr2.OrderId)
        → t1 = tr1 ∧ t2 = tr2) := by
  unfold Migration.migrate at h
  by_cases hg : tr1.TransactionGroup ≠ tr2.TransactionGroup
  · rw [if_pos hg] at h
    exact absurd h (by simp)
  rw [if_neg hg] at h
  by_cases hexp : tr1.ExpenseId ≠ none ∧ tr1.ExpenseId = tr2.ExpenseId
  · rw [if_pos hexp] at h
    simp only [Except.ok.injEq, Prod.mk.injEq] at h
    obtain ⟨h1, h2⟩ := h
    subst h1
    subst h2
    exact ⟨⟨rfl, rfl, rfl, rfl, rfl, rfl⟩, fun _ => ⟨rfl, rfl⟩,
      fun _ _ => ⟨rfl, rfl⟩⟩
  rw [if_neg hexp] at h
  by_cases hord : tr1.OrderId ≠ none ∧ tr1.OrderId = tr2.OrderId
  · rw [if_pos hord] at h
    cases hC : (tr1.type == "CREDIT") <;>
      cases hD : (tr1.type == "DEBIT") <;>
      simp only [hC, hD] at h <;>
      split at h <;>
      simp [Migration.rewriteFees, Migration.getSlot, Migration.setSlot,
        Prod.mk.injEq] at h <;>
      obtain ⟨h1, h2⟩ := h <;>
      subst h1 <;>
      subst h2 <;>
      refine ⟨⟨?_, ?_, ?_, ?_, ?_, ?_⟩, fun hx => absurd hx hexp,
        fun _ hno => absurd hord hno⟩ <;>
      simp [Migration.ensureFx_amount, Migration.ensureFx_net,
        Migration.ensureFx_group]
  · rw [if_neg hord] at h
    simp only [Except.ok.injEq, Prod.mk.injEq] at h
    obtain ⟨h1, h2⟩ := h
    subst h1
    subst h2
    exact ⟨⟨rfl, rfl, rfl, rfl, rfl, rfl⟩, fun hx => absurd hx hexp,
      fun _ _ => ⟨rfl, rfl⟩⟩

/-- C3 (witness): the frame statement instantiated on the expense-linked
pair, which `migrate` returns untouched. -/
theorem claim3_witness :
    trExpCredit.amount = trExpCredit.amount
    ∧ Migration.migrate trExpCredit trExpDebit = .ok (trExpCredit, trExpDebit)
    ∧ (trExpCredit = trExpCredit ∧ trExpDebit = trExpDebit) := by
  have hmig : Migration.migrate trExpCredit trExpDebit
      = .ok (trExpCredit, trExpDebit) := rfl
  have h := claim3_frame trExpCredit trExpDebit trExpCredit trExpDebit hmig
  exact ⟨rfl, hmig, h.2.1 (by decide)⟩

/-! ## Claim C10 -/

theorem runLoop_store_eq (store : List Transaction) (bs count : Nat) :
    ∀ fuel offset log,
      (Migration.runLoop store bs count fuel offset log).2 = store := by
  intro fuel
  induction fuel with
  | zero =>
    intro offset log
    rfl
  | succ f ih =>
    intro offset log
    unfold Migration.runLoop
    split
    · rcases hcb : Migration.checkBatch ((store.drop offset).take bs)
        with ⟨plog, e⟩
      cases e with
      | none =>
        simp only [hcb]
        exact ih _ _
      | some err =>
        simp only [hcb]
    · rfl

/-- C10 (confirmed): `Migration.run` issues no persistence write — the
stored table it scanned is returned unchanged for every database state,
fuel and options — and the parsed `dryRun` option is never consulted:
flipping it changes nothing about the run. -/
theorem claim10_no_writes (opts : Options) (b : Bool)
    (store : List Transaction) (fuel : Nat) :
    Migration.run { opts with dryRun := b } store fuel
        = Migration.run opts store fuel
    ∧ (Migration.run opts store fuel).2 = store := by
  exact ⟨rfl, runLoop_store_eq store _ _ fuel 0 []⟩

/-! ## Claim C6 -/

/-- C6 (confirmed): the trial end is computed from the order's creation
date with the day-of-month forced to 1 (the result does not depend on the
original day), advancing one calendar month for interval `month` and twelve
for `year`, converted to epoch seconds; any other interval yields `null`.
On creation date 2020-03-15 with interval `month` the result is
1585699200, the epoch seconds of 2020-04-01T00:00:00 in the input's
timezone basis (and the `year`/December cases check out likewise). -/
theorem claim6_trial_end :
    (∀ (d : JSDate) (dayA dayB : Int) (i : String),
        getSubscriptionTrialEndDate { d with day := dayA } i
          = getSubscriptionTrialEndDate { d with day := dayB } i)
    ∧ (∀ (d : JSDate) (i : String), i ≠ "month" → i ≠ "year" →
        getSubscriptionTrialEndDate d i = none)
    ∧ getSubscriptionTrialEndDate ⟨2020, 2, 15, 0⟩ "month" = some 1585699200
    ∧ 1585699200 = daysFromCivil 2020 4 1 * 86400
    ∧ getSubscriptionTrialEndDate ⟨2020, 2, 15, 0⟩ "year" = some 1614556800
    ∧ 1614556800 = daysFromCivil 2021 3 1 * 86400
    ∧ getSubscriptionTrialEndDate ⟨2020, 11, 20, 0⟩ "month" = some 1609459200
    ∧ 1609459200 = daysFromCivil 2021 1 1 * 86400 := by
  refine ⟨?_, ?_, by decide, by decide, by decide, by decide, by decide,
    by decide⟩
  · intro d dayA dayB i
    rfl
  · intro d i hm hy
    unfold getSubscriptionTrialEndDate
    rw [if_neg, if_neg]
    · simpa using hy
    · simpa using hm

/-- C6 (witness): the hypothesis-bearing parts instantiated — an unknown
interval yields `null`, and two different creation days in the same month
give the same trial end. -/
theorem claim6_witness :
    getSubscriptionTrialEndDate ⟨2021, 5, 9, 0⟩ "week" = none
    ∧ getSubscriptionTrialEndDate ⟨2020, 2, 7, 0⟩ "month"
        = getSubscriptionTrialEndDate ⟨2020, 2, 28, 0⟩ "month" := by
  refine ⟨claim6_trial_end.2.1 ⟨2021, 5, 9, 0⟩ "week" (by decide) (by decide),
    ?_⟩
  exact claim6_trial_end.1 ⟨2020, 2, 0, 0⟩ 7 28 "month"

/-! ## Claim C7 -/

/-- C7 (counterexample): the claim fails — with `--limit 1` against an
empty table (any explicit limit exceeding the stored row count behaves the
same), every fetch returns an empty batch, the offset never advances, and
the `while (this.offset < count)` loop never terminates. -/
theorem claim7_counterexample : Migration.RunDiverges optsLimitOne [] := by
  intro fuel
  have key : ∀ (f : Nat) (log : List (Int × Int)),
      (Migration.runLoop [] 10 1 f 0 log).1 = none := by
    intro f
    induction f with
    | zero =>
      intro log
      rfl
    | succ g ih =>
      intro log
      show (Migration.runLoop [] 10 1 g 0 (log ++ [])).1 = none
      rw [List.append_nil]
      exact ih log
  exact key fuel []

theorem runLoop_terminates (store : List Transaction) (bs count : Nat)
    (hbs : 1 ≤ bs) (hcount : count ≤ store.length) :
    ∀ fuel offset log, count - offset < fuel →
      ((Migration.runLoop store bs count fuel offset log).1).isSome = true := by
  intro fuel
  induction fuel with
  | zero =>
    intro offset log hf
    omega
  | succ f ih =>
    intro offset log hf
    unfold Migration.runLoop
    split
    · rename_i ho
      rcases hcb : Migration.checkBatch ((store.drop offset).take bs)
        with ⟨plog, e⟩
      cases e with
      | some err =>
        simp only [hcb]
        rfl
      | none =>
        simp only [hcb]
        apply ih
        have hlen : 1 ≤ ((store.drop offset).take bs).length := by
          rw [List.length_take, List.length_drop]
          exact le_min hbs (by omega)
        omega
    · rfl

/-- C7 (amended): the reconciliation `run` terminates whenever the
effective count — the explicitly supplied limit when one is given, else the
snapshot count of stored rows — does not exceed the number of stored rows
and the numeric batch size is positive; fuel beyond the row count is enough
for the loop to have returned.  (Without that proviso the claim fails: a
limit exceeding the stored row count diverges, see the counterexample.) -/
theorem claim7_amended (opts : Options) (store : List Transaction) (fuel : Nat)
    (hcount : opts.limit.getD store.length ≤ store.length)
    (hbs : 1 ≤ jsValToNat opts.batchSize)
    (hfuel : store.length < fuel) :
    ((Migration.run opts store fuel).1).isSome = true := by
  unfold Migration.run
  apply runLoop_terminates store _ _ hbs hcount fuel 0 []
  omega

/-- C7 (witness): the amended statement instantiated on a two-row table
with the default options and fuel 3. -/
theorem claim7_witness :
    optsDefault.limit.getD ([trCreditEx, trDebitEx].length)
        ≤ [trCreditEx, trDebitEx].length
    ∧ 1 ≤ jsValToNat optsDefault.batchSize
    ∧ [trCreditEx, trDebitEx].length < 3
    ∧ ((Migration.run optsDefault [trCreditEx, trDebitEx] 3).1).isSome
        = true := by
  refine ⟨by decide, by decide, by decide, ?_⟩
  exact claim7_amended optsDefault [trCreditEx, trDebitEx] 3 (by decide)
    (by decide) (by decide)

/-! ## Claim C4 -/

theorem wellPaired_even {l : List Transaction}
    (h : Migration.WellPaired l) : l.length % 2 = 0 := by
  induction h with
  | nil => rfl
  | cons t1 t2 rest hg hr ih =>
    simp only [List.length_cons]
    omega

theorem wellPaired_split {l : List Transaction}
    (h : Migration.WellPaired l) :
    ∀ n, n % 2 = 0 →
      Migration.WellPaired (l.take n) ∧ Migration.WellPaired (l.drop n) := by
  induction h with
  | nil =>
    intro n _
    simp only [List.take_nil, List.drop_nil]
    exact ⟨.nil, .nil⟩
  | cons t1 t2 rest hg hr ih =>
    intro n hev
    rcases Nat.eq_zero_or_pos n with rfl | hpos
    · exact ⟨.nil, .cons t1 t2 rest hg hr⟩
    · obtain ⟨k, rfl⟩ : ∃ k, n = k + 2 := ⟨n - 2, by omega⟩
      have ht : List.take (k + 2) (t1 :: t2 :: rest)
          = t1 :: t2 :: List.take k rest := rfl
      have hd : List.drop (k + 2) (t1 :: t2 :: rest) = List.drop k rest := rfl
      rw [ht, hd]
      exact ⟨.cons t1 t2 _ hg (ih k (by omega)).1, (ih k (by omega)).2⟩

theorem checkBatch_good {l : List Transaction} (h : Migration.WellPaired l) :
    Migration.checkBatch l = (Migration.pairIds l, none) := by
  induction h with
  | nil => rfl
  | cons t1 t2 rest hg hr ih =>
    show Migration.checkBatch (t1 :: t2 :: rest) = _
    unfold Migration.checkBatch
    rw [if_neg (not_not_intro hg)]
    simp only [ih]
    rfl

theorem checkBatch_bad {pre : List Transaction}
    (hwp : Migration.WellPaired pre) {bad : List Transaction}
    (hv : Migration.ViolStart bad) :
    Migration.checkBatch (pre ++ bad)
      = (Migration.pairIds pre, some (Migration.errOf bad)) := by
  induction hwp with
  | nil =>
    cases bad with
    | nil => exact hv.elim
    | cons t rest =>
      cases rest with
      | nil => rfl
      | cons t2 r2 =>
        show Migration.checkBatch (t :: t2 :: r2) = _
        unfold Migration.checkBatch
        rw [if_pos (show t.TransactionGroup ≠ t2.TransactionGroup from hv)]
        rfl
  | cons t1 t2 rest hg hr ih =>
    show Migration.checkBatch (t1 :: t2 :: (rest ++ bad)) = _
    unfold Migration.checkBatch
    rw [if_neg (not_not_intro hg)]
    simp only [ih]
    rfl

theorem violStart_take (bad : List Transaction) (m : Nat) (hm : 2 ≤ m)
    (hv : Migration.ViolStart bad) :
    Migration.ViolStart (bad.take m)
      ∧ Migration.errOf (bad.take m) = Migration.errOf bad := by
  obtain ⟨k, rfl⟩ : ∃ k, m = k + 2 := ⟨m - 2, by omega⟩
  cases bad with
  | nil => exact hv.elim
  | cons t rest =>
    cases rest with
    | nil => exact ⟨trivial, rfl⟩
    | cons t2 r2 => exact ⟨hv, rfl⟩

theorem pairIds_append {p : List Transaction} (h : Migration.WellPaired p)
    (q : List Transaction) :
    Migration.pairIds (p ++ q) = Migration.pairIds p ++ Migration.pairIds q := by
  induction h with
  | nil => rfl
  | cons t1 t2 rest hg hr ih =>
    show (t1.id, t2.id) :: Migration.pairIds (rest ++ q) = _
    rw [ih]
    rfl

theorem runLoop_hits_violation (store : List Transaction) (bs count : Nat)
    (hbse : bs % 2 = 0) (hbs : 0 < bs) (hcount : count = store.length) :
    ∀ fuel offset pre bad log,
      store.drop offset = pre ++ bad →
      Migration.WellPaired pre → Migration.ViolStart bad →
      offset ≤ store.length →
      pre.length < fuel →
      (Migration.runLoop store bs count fuel offset log).1
        = some (log ++ Migration.pairIds pre,
                some (Migration.errOf bad)) := by
  intro fuel
  induction fuel with
  | zero =>
    intro offset pre bad log hsplit hwp hv hoff hlen
    omega
  | succ f ih =>
    intro offset pre bad log hsplit hwp hv hoff hlen
    have hbadne : bad ≠ [] := by
      cases bad with
      | nil => exact hv.elim
      | cons t r => exact List.cons_ne_nil t r
    have hbadlen : 1 ≤ bad.length := List.length_pos.mpr hbadne
    have hdroplen : store.length - offset = pre.length + bad.length := by
      have hc := congrArg List.length hsplit
      simpa [List.length_drop, List.length_append] using hc
    have hoc : offset < count := by omega
    unfold Migration.runLoop
    rw [if_pos hoc]
    by_cases hble : bs ≤ pre.length
    · obtain ⟨hwp1, hwp2⟩ := wellPaired_split hwp bs hbse
      have htake : (store.drop offset).take bs = pre.take bs := by
        rw [hsplit]
        exact List.take_append_of_le_length hble
      have hcheck : Migration.checkBatch ((store.drop offset).take bs)
          = (Migration.pairIds (pre.take bs), none) := by
        rw [htake]
        exact checkBatch_good hwp1
      simp only [hcheck]
      have hblen : ((store.drop offset).take bs).length = bs := by
        rw [List.length_take, List.length_drop]
        omega
      rw [hblen]
      have hsplit2 : store.drop (offset + bs) = pre.drop bs ++ bad := by
        rw [← List.drop_drop, hsplit, List.drop_append_of_le_length hble]
      have ihres := ih (offset + bs) (pre.drop bs) bad
        (log ++ Migration.pairIds (pre.take bs)) hsplit2 hwp2 hv
        (by omega) (by rw [List.length_drop]; omega)
      rw [ihres]
      have hpre : Migration.pairIds pre
          = Migration.pairIds (pre.take bs) ++ Migration.pairIds (pre.drop bs) := by
        conv_lhs => rw [← List.take_append_drop bs pre]
        exact pairIds_append hwp1 _
      rw [hpre, ← List.append_assoc]
    · push_neg at hble
      have hpreven := wellPaired_even hwp
      have hm2 : 2 ≤ bs - pre.length := by omega
      obtain ⟨hvt, het⟩ := violStart_take bad (bs - pre.length) hm2 hv
      have hbm : bs = pre.length + (bs - pre.length) := by omega
      have htake : (store.drop offset).take bs
          = pre ++ bad.take (bs - pre.length) := by
        rw [hsplit, hbm]
        have := @List.take_append _ pre bad (bs - pre.length)
        simpa using this
      have hcheck : Migration.checkBatch ((store.drop offset).take bs)
          = (Migration.pairIds pre, some (Migration.errOf bad)) := by
        rw [htake, checkBatch_bad hwp hvt, het]
      simp only [hcheck]

/-- C4 (confirmed): for a scanned sequence that splits into a well-paired
prefix followed by a suffix starting with a pairing violation — a group
mismatch at an even boundary, or a lone final row (an odd dataset) — the
reconciliation run stops with a `PairingError` at that first violating
boundary (the lone-row case surfaces as the `TypeError` of reading
`transactions[i+1].TransactionGroup` off the end, modelled as
`PairingError.unpairedRow`), and no pair at or beyond the boundary is handed
to `migrate`: the log of migrated pairs is exactly the pairs of the
well-paired prefix.  Stated for an even, positive batch size (the default
10 and the spec's 100 both are) and no explicit limit. -/
theorem claim4_pairing (pre bad : List Transaction) (opts : Options)
    (fuel : Nat)
    (hwp : Migration.WellPaired pre) (hv : Migration.ViolStart bad)
    (hlimit : opts.limit = none)
    (hbse : jsValToNat opts.batchSize % 2 = 0)
    (hbs : 0 < jsValToNat opts.batchSize)
    (hfuel : pre.length < fuel) :
    (Migration.run opts (pre ++ bad) fuel).1
      = some (Migration.pairIds pre, some (Migration.errOf bad)) := by
  unfold Migration.run
  rw [hlimit]
  have hres := runLoop_hits_violation (pre ++ bad) (jsValToNat opts.batchSize)
    ((pre ++ bad).length) hbse hbs rfl fuel 0 pre bad []
    (by simp) hwp hv (by simp) hfuel
  simpa using hres

/-- C4 (witness): the pairing statement instantiated on a dataset that is a
single unpaired row, with the default options: the run aborts immediately
with the unpaired-row error and no pair is migrated. -/
theorem claim4_witness :
    (Migration.run optsDefault [trLone] 2).1
      = some ([], some (Migration.errOf [trLone]))
    ∧ Migration.errOf [trLone] = .unpairedRow := by
  refine ⟨?_, rfl⟩
  have hres := claim4_pairing [] [trLone] optsDefault 2 .nil trivial rfl
    (by decide) (by decide) (by decide)
  simpa using hres

/-! ## Claim C5 -/

/-- C5 (confirmed): for an order with a supplied subscription, when every
gateway step up to and including the charge succeeds but the gateway's
`createSubscription` call fails, `processOrder` rejects with that very
error, the transaction pair persisted by the charge step remains persisted
in the store, and neither `order.processedAt` nor
`paymentMethod.confirmedAt` is set. -/
theorem claim5_subscription_failure
    (g : Payments.Gateway) (env : Payments.OrderEnv) (now : Int)
    (s0 : Payments.Store) (e : String)
    (interval : String) (host : Payments.StripeAccount)
    (cid tok btref planId hostCid : String)
    (bt : Payments.BalanceTransaction)
    (hsub : env.subscriptionInterval = some interval)
    (hhost : g.getHostStripeAccount = .ok host)
    (hcid : s0.pmCustomerId = some cid)
    (htok : ∀ a c, g.createToken a c = .ok tok)
    (hcharge : ∀ a r, g.createCharge a r = .ok btref)
    (hbt : ∀ a r, g.retrieveBalanceTransaction a r = .ok bt)
    (hplan : ∀ a i amt cur, g.getOrCreatePlan a i amt cur = .ok planId)
    (hcache : s0.pmCustomerIdForHost.lookup host.username = some hostCid)
    (hfail : ∀ a c r, g.createSubscription a c r = .error e)
    (hproc : s0.orderProcessedAt = none)
    (hconf : s0.pmConfirmedAt = none) :
    ∃ payload sOut,
      Payments.processOrder g env now s0 = (.error e, sOut)
      ∧ sOut.transactions = s0.transactions ++ [payload]
      ∧ sOut.orderProcessedAt = none
      ∧ sOut.pmConfirmedAt = none := by
  unfold Payments.processOrder Payments.createChargeAndTransactions
    Payments.createSubscriptionFlow Payments.getOrCreateCustomerIdForHost
  simp only [hhost, hcid, htok, hcharge, hbt, hplan, hsub, hfail]
  simp only [hcache]
  exact ⟨_, _, rfl, rfl, hproc, hconf⟩

/-- C5 (witness): the statement instantiated on a concrete gateway whose
`createSubscription` always fails, a monthly order, and a store with the
customer ids already cached. -/
theorem claim5_witness :
    ∃ payload sOut,
      Payments.processOrder gwSubFail envSub 0 store0
        = (.error "subscription declined", sOut)
      ∧ sOut.transactions = store0.transactions ++ [payload]
      ∧ sOut.orderProcessedAt = none
      ∧ sOut.pmConfirmedAt = none :=
  claim5_subscription_failure gwSubFail envSub 0 store0
    "subscription declined" "month" ⟨"acct_host"⟩ "cus_platform" "tok_shared"
    "txn_bt_ref" "plan_month_100000_usd" "cus_host"
    { amount := 100000, currency := "usd", applicationFee := 5000,
      stripeFee := 320 }
    rfl rfl rfl (fun _ _ => rfl) (fun _ _ => rfl) (fun _ _ => rfl)
    (fun _ _ _ _ => rfl) rfl (fun _ _ _ => rfl) rfl rfl
